import Mathlib

/-!
Verification of the cocofest FES muscle-dynamics core against its
natural-language specification.  The Python sources are shallowly embedded:
numeric values are rationals (with results involving the exponential taken
in `ℝ`), Python's dynamically typed configuration values are embedded as the
inductive `PyVal`, raised exceptions become `Except PyError`, and method
calls that read object attributes take an explicit parameter record.
-/

/-- Python runtime values as they appear in the configuration dictionaries
checked by `IvpFes.dictionaries_check` (floats are embedded as rationals). -/
inductive PyVal where
  | pynone
  | pybool (b : Bool)
  | pyint (n : ℤ)
  | pyfloat (q : ℚ)
  | pystr (s : String)
  | pylist (xs : List PyVal)

/-- Python exception classes raised by the configuration checks. -/
inductive PyError where
  | valueError (msg : String)
  | typeError (msg : String)
  | notImplementedError (msg : String)
  | runtimeError (msg : String)
deriving DecidableEq

/-- Whether a `PyError` is a `TypeError`. -/
def PyError.isTypeError : PyError → Bool
  | .typeError _ => true
  | _ => false

deriving instance DecidableEq for Except

/-- Python `isinstance(v, int)`; `bool` is a subclass of `int` in Python. -/
def PyVal.isInstInt : PyVal → Bool
  | .pyint _ => true
  | .pybool _ => true
  | _ => false

/-- Python `isinstance(v, float)` (`bool`/`int` are not `float` instances). -/
def PyVal.isInstFloat : PyVal → Bool
  | .pyfloat _ => true
  | _ => false

/-- Python `isinstance(v, bool)`. -/
def PyVal.isInstBool : PyVal → Bool
  | .pybool _ => true
  | _ => false

/-- Python `isinstance(v, list)`. -/
def PyVal.isInstList : PyVal → Bool
  | .pylist _ => true
  | _ => false

/-- Python `isinstance(v, str)`. -/
def PyVal.isInstStr : PyVal → Bool
  | .pystr _ => true
  | _ => false

/-- Python `v is None`. -/
def PyVal.isNone : PyVal → Bool
  | .pynone => true
  | _ => false

/-- Numeric value of a Python number (`True == 1`, `False == 0`). -/
def PyVal.toQ : PyVal → ℚ
  | .pyint n => (n : ℚ)
  | .pyfloat q => q
  | .pybool b => if b then 1 else 0
  | _ => 0

/-- Natural-number value of a Python int used as a length/count. -/
def PyVal.toNat : PyVal → ℕ
  | .pyint n => n.toNat
  | .pybool b => if b then 1 else 0
  | _ => 0

/-- String value of a Python str. -/
def PyVal.toStr : PyVal → String
  | .pystr s => s
  | _ => ""

/-- Python comparison `v >= m` for a float bound `m`: defined on numbers
(`bool` included), a `TypeError` (`Option.none`) otherwise. -/
def pyGeQ (v : PyVal) (m : ℚ) : Option Bool :=
  match v with
  | .pyint n => some (decide (m ≤ (n : ℚ)))
  | .pyfloat q => some (decide (m ≤ q))
  | .pybool b => some (decide (m ≤ (if b then (1 : ℚ) else 0)))
  | _ => Option.none

/-- Python `[x >= m for x in xs]`: the whole comprehension is evaluated
left to right, so a non-numeric element raises before `all` is consulted. -/
def pyCompareAllGe (xs : List PyVal) (m : ℚ) : Except PyError (List Bool) :=
  match xs with
  | [] => Except.ok []
  | x :: rest =>
    match pyGeQ x m with
    | some b =>
      match pyCompareAllGe rest m with
      | Except.ok bs => Except.ok (b :: bs)
      | Except.error e => Except.error e
    | Option.none => Except.error (.typeError "comparison not supported between instances")

/-- Python `all([x >= m for x in xs])`. -/
def pyAllGe (xs : List PyVal) (m : ℚ) : Except PyError Bool := do
  let bs ← pyCompareAllGe xs m
  pure (bs.all id)

/-- The model-variant lattice of cocofest (which subclass the configured
model instance belongs to). -/
inductive ModelKind where
  | frequency
  | frequencyFatigue
  | pulseDuration
  | pulseDurationFatigue
  | pulseIntensity
  | pulseIntensityFatigue
deriving DecidableEq

/-- Python `isinstance(model, DingModelPulseDurationFrequency |
DingModelPulseDurationFrequencyWithFatigue)`. -/
def ModelKind.isPulseDuration : ModelKind → Bool
  | .pulseDuration => true
  | .pulseDurationFatigue => true
  | _ => false

/-- Python `isinstance(model, DingModelIntensityFrequency |
DingModelIntensityFrequencyWithFatigue)`. -/
def ModelKind.isPulseIntensity : ModelKind → Bool
  | .pulseIntensity => true
  | .pulseIntensityFatigue => true
  | _ => false

/-- Attribute record of the `hmed2018_with_fatigue_integrate` model instance
(`DingModelIntensityFrequencyWithFatigueIntegrate`): rest constants, fatigue
rates, calcium/intensity constants and the optional muscle name. -/
structure HmedParams where
  a_rest : ℚ
  tau1_rest : ℚ
  km_rest : ℚ
  alpha_a : ℚ
  alpha_tau1 : ℚ
  alpha_km : ℚ
  tau_fat : ℚ
  tauc : ℚ
  r0_km_relationship : ℚ
  cr : ℚ
  bs : ℚ
  Is : ℚ
  muscle_name : Option String
deriving DecidableEq

/-- Attribute record of the `ding2007` model instance
(`DingModelPulseDurationFrequency`). -/
structure Ding2007Params where
  a_scale : ℚ
  pd0 : ℚ
  pdt : ℚ
  tau1_rest : ℚ
  tau2 : ℚ
  km_rest : ℚ
  tauc : ℚ
  a_rest : ℚ
  r0_km_relationship : ℚ
deriving DecidableEq

/-- Python truthiness of the optional muscle-name string (`None` and the
empty string are falsy). -/
def strOptTruthy : Option String → Bool
  | some s => s ≠ ""
  | Option.none => false

/-- Source `hmed2018_with_fatigue_integrate.py` lines 48-59, property
`name_dof`: state labels, with a muscle-name suffix when
`self.muscle_name and with_muscle_name` is truthy. -/
def name_dof (p : HmedParams) (with_muscle_name : Bool) : List String :=
  let muscle_name :=
    if strOptTruthy p.muscle_name && with_muscle_name then "_" ++ p.muscle_name.getD "" else ""
  ["Cn" ++ muscle_name, "F" ++ muscle_name, "A" ++ muscle_name,
   "Tau1" ++ muscle_name, "Km" ++ muscle_name]

/-- Source `hmed2018_with_fatigue_integrate.py` lines 65-71,
`standard_rest_values`: the column vector of rest-state values
`[[0], [0], [a_rest], [tau1_rest], [km_rest]]`. -/
def standard_rest_values (p : HmedParams) : List (List ℚ) :=
  [[0], [0], [p.a_rest], [p.tau1_rest], [p.km_rest]]

/-- Modelled from the spec: `name_dof` of the base 2-state (no fatigue)
variant, `["Cn", "F"]`; the base-variant source file (`ding2003.py`) is not
under `src/`. -/
def base_name_dof : List String := ["Cn", "F"]

/-- Modelled from the spec: `standard_rest_values` of the base 2-state
variant, `Cn = 0, F = 0`; the base-variant source file (`ding2003.py`) is
not under `src/`. -/
def base_standard_rest_values : List (List ℚ) := [[0], [0]]

/-- Source `hmed2018_with_fatigue_integrate.py` lines 134-147, `a_dot_fun`:
`-(a - a_rest) / tau_fat + alpha_a * f`. -/
def a_dot_fun (p : HmedParams) (a f : ℚ) : ℚ :=
  -(a - p.a_rest) / p.tau_fat + p.alpha_a * f

/-- Source `hmed2018_with_fatigue_integrate.py` lines 149-164,
`tau1_dot_fun`: `-(tau1 - tau1_rest) / tau_fat + alpha_tau1 * f`. -/
def tau1_dot_fun (p : HmedParams) (tau1 f : ℚ) : ℚ :=
  -(tau1 - p.tau1_rest) / p.tau_fat + p.alpha_tau1 * f

/-- Source `hmed2018_with_fatigue_integrate.py` lines 166-179, `km_dot_fun`:
`-(km - km_rest) / tau_fat + alpha_km * f`. -/
def km_dot_fun (p : HmedParams) (km f : ℚ) : ℚ :=
  -(km - p.km_rest) / p.tau_fat + p.alpha_km * f

/-- Source `ding2007.py` lines 166-173, the selection loop of
`a_calculation`: iterate `i` over `range(len(t_stim_prev))`; at `i = 0` take
`impulse_time_list[0]` unconditionally, afterwards multiply
`impulse_time_list[i]` by `if_else(t_stim_prev[i] <= t, 1, 0)` and keep the
product when it is nonzero, otherwise keep the previous value.  The loop is
rendered as a fold over the zipped tails starting from
`impulse_time_list[0]`; the source indexes both lists with the same `i`, so
for equally long lists the two renderings agree (on a shorter duration list
the Python loop would raise an `IndexError`). -/
def a_selection (t : ℚ) (t_stim_prev impulse_time_list : List ℚ) : ℚ :=
  match t_stim_prev, impulse_time_list with
  | _ :: t_stim_tail, impulse_head :: impulse_tail =>
    (t_stim_tail.zip impulse_tail).foldl
      (fun impulse_time p =>
        let coefficient : ℚ := if p.1 ≤ t then 1 else 0
        let temp_impulse_time := p.2 * coefficient
        if temp_impulse_time ≠ 0 then temp_impulse_time else impulse_time)
      impulse_head
  | _, _ => 0

/-- Source `ding2007.py` lines 149-174, `a_calculation`: select the active
impulse duration by the loop above, then return
`a_scale * (1 - exp(-(impulse_time - pd0) / pdt))`. -/
noncomputable def a_calculation (a_scale pd0 pdt t : ℚ) (t_stim_prev impulse_time_list : List ℚ) : ℝ :=
  (a_scale : ℝ) *
    (1 - Real.exp (-(((a_selection t t_stim_prev impulse_time_list : ℚ) : ℝ) - (pd0 : ℝ)) / (pdt : ℝ)))

/-- Selection algorithm in the words of the spec (section 4.4): scan the
pulses in ascending order paired with their durations; the active duration
is the one of the last pulse whose apparition time has passed, starting from
the first duration. -/
def spec_selected_duration (t : ℚ) (t_stim d : List ℚ) : ℚ :=
  (t_stim.zip d).foldl (fun acc p => if p.1 ≤ t then p.2 else acc) (d.getD 0 0)

/-- Modelled from the spec (sections 4.1-4.3): the decay-weighted history
sum driving `Cn_dot`, `Σ_i R_i * exp(-(t - t_stim_i) / tauc)` where a pulse
with `t_stim_i > t` contributes exactly `0` and `R_i` is `1` for the first
pulse and the burst factor `r0` for subsequent pulses; the base-model source
file (`ding2003.py`) holding `cn_sum_fun` is not under `src/`. -/
noncomputable def cn_sum_fun (tauc r0 : ℚ) (t : ℚ) (t_stim_prev : List ℚ) : ℝ :=
  ((List.range t_stim_prev.length).map (fun i =>
    let ri : ℝ := if i = 0 then 1 else (r0 : ℝ)
    if t_stim_prev.getD i 0 ≤ t then
      ri * Real.exp (-(((t : ℝ)) - ((t_stim_prev.getD i 0 : ℚ) : ℝ)) / (tauc : ℝ))
    else 0)).sum

/-- Modelled from the spec (section 4.3): `Cn_dot = (1/tauc) * Σ_i [...] -
Cn / tauc`; the base-model source file (`ding2003.py`) holding `cn_dot_fun`
is not under `src/`. -/
noncomputable def cn_dot_fun (tauc r0 : ℚ) (cn : ℚ) (t : ℚ) (t_stim_prev : List ℚ) : ℝ :=
  (1 / (tauc : ℝ)) * cn_sum_fun tauc r0 t t_stim_prev - (cn : ℝ) / (tauc : ℝ)

/-- Modelled from the spec (section 4.5): the saturating force-intensity
scaling, a bounded nonlinear function of `(intensity_i - Is)` against the
saturation constants `cr, bs`; the intensity-model source file
(`hmed2018_integrate.py`) holding `lambda_i_calculation` is not under
`src/`. -/
noncomputable def lambda_i_calculation (cr bs is_ : ℚ) (intensity : ℚ) : ℝ :=
  (cr : ℝ) * (1 - Real.exp (-(((intensity : ℝ)) - (is_ : ℝ)) / (bs : ℝ)))

/-- Modelled from the spec (sections 4.2, 4.5): the intensity-model history
sum, in which the contribution of pulse `i` is additionally scaled by the
saturating function of its own intensity; `hmed2018_integrate.py` is not
under `src/`. -/
noncomputable def cn_sum_intensity_fun (tauc r0 cr bs is_ : ℚ) (t : ℚ)
    (t_stim_prev intensity_stim : List ℚ) : ℝ :=
  ((List.range t_stim_prev.length).map (fun i =>
    let ri : ℝ := if i = 0 then 1 else (r0 : ℝ)
    if t_stim_prev.getD i 0 ≤ t then
      lambda_i_calculation cr bs is_ (intensity_stim.getD i 0) *
        ri * Real.exp (-(((t : ℝ)) - ((t_stim_prev.getD i 0 : ℚ) : ℝ)) / (tauc : ℝ))
    else 0)).sum

/-- Modelled from the spec (section 4.3): the intensity-model `Cn_dot`;
`hmed2018_integrate.py` is not under `src/`. -/
noncomputable def cn_dot_intensity_fun (tauc r0 cr bs is_ : ℚ) (cn : ℚ) (t : ℚ)
    (t_stim_prev intensity_stim : List ℚ) : ℝ :=
  (1 / (tauc : ℝ)) * cn_sum_intensity_fun tauc r0 cr bs is_ t t_stim_prev intensity_stim -
    (cn : ℝ) / (tauc : ℝ)

/-- Modelled from the spec (section 4.3):
`F_dot = A * (Cn / (Km + Cn)) * force_length * force_velocity - F / tau1`;
the base-model source file (`ding2003.py`) holding `f_dot_fun` is not under
`src/`. -/
noncomputable def f_dot_fun (cn f a tau1 km fl fv : ℝ) : ℝ :=
  a * (cn / (km + cn)) * fl * fv - f / tau1

/-- Source `ding2007.py` lines 101-147, `system_dynamics`: `r0 = km_rest +
r0_km_relationship`; `cn_dot` from the history sum; `a` from
`a_calculation`; `f_dot` with the rest constants; result `(cn_dot, f_dot)`. -/
noncomputable def ding2007_system_dynamics (p : Ding2007Params) (cn f : ℚ) (t : ℚ)
    (t_stim_prev impulse_time : List ℚ) (fl fv : ℚ) : ℝ × ℝ :=
  let r0 := p.km_rest + p.r0_km_relationship
  let cn_dot := cn_dot_fun p.tauc r0 cn t t_stim_prev
  let a := a_calculation p.a_scale p.pd0 p.pdt t t_stim_prev impulse_time
  let f_dot := f_dot_fun (cn : ℝ) (f : ℝ) a (p.tau1_rest : ℝ) (p.km_rest : ℝ) (fl : ℝ) (fv : ℝ)
  (cn_dot, f_dot)

/-- Source `hmed2018_with_fatigue_integrate.py` lines 73-132,
`system_dynamics`: `r0 = km + r0_km_relationship` with the state `km`;
`cn_dot` from the intensity history sum; `f_dot` with the fatigue states;
the three fatigue derivatives; result vector
`[cn_dot, f_dot, a_dot, tau1_dot, km_dot]`. -/
noncomputable def hmed_system_dynamics (p : HmedParams) (cn f a tau1 km : ℚ) (t : ℚ)
    (t_stim_prev intensity_stim : List ℚ) (fl fv : ℚ) : List ℝ :=
  let r0 := km + p.r0_km_relationship
  let cn_dot := cn_dot_intensity_fun p.tauc r0 p.cr p.bs p.Is cn t t_stim_prev intensity_stim
  let f_dot := f_dot_fun (cn : ℝ) (f : ℝ) (a : ℝ) (tau1 : ℝ) (km : ℝ) (fl : ℝ) (fv : ℝ)
  let a_dot := ((a_dot_fun p a f : ℚ) : ℝ)
  let tau1_dot := ((tau1_dot_fun p tau1 f : ℚ) : ℝ)
  let km_dot := ((km_dot_fun p km f : ℚ) : ℝ)
  [cn_dot, f_dot, a_dot, tau1_dot, km_dot]

/-- State-passing form of `ding2007_system_dynamics`: the method reads the
model attributes and performs no assignment to `self`, so the returned
model record is the one it was called with. -/
noncomputable def ding2007_system_dynamics_run (p : Ding2007Params) (cn f : ℚ) (t : ℚ)
    (t_stim_prev impulse_time : List ℚ) (fl fv : ℚ) : (ℝ × ℝ) × Ding2007Params :=
  (ding2007_system_dynamics p cn f t t_stim_prev impulse_time fl fv, p)

/-- State-passing form of `hmed_system_dynamics`: the method reads the model
attributes and performs no assignment to `self`, so the returned model
record is the one it was called with. -/
noncomputable def hmed_system_dynamics_run (p : HmedParams) (cn f a tau1 km : ℚ) (t : ℚ)
    (t_stim_prev intensity_stim : List ℚ) (fl fv : ℚ) : List ℝ × HmedParams :=
  (hmed_system_dynamics p cn f a tau1 km t t_stim_prev intensity_stim fl fv, p)

/-- Python list repetition `l * n`: `l` concatenated `n` times. -/
def py_list_mul (l : List ℚ) : ℕ → List ℚ
  | 0 => []
  | n + 1 => l ++ py_list_mul l n

/-- Source `ding2007.py` lines 279-291, the broadcast step of `dynamics`:
`if len(impulse_time) == 1 and len(stim_apparition) != 1: impulse_time =
impulse_time * len(stim_apparition)`, then call `system_dynamics`. -/
noncomputable def ding2007_dynamics (p : Ding2007Params) (t : ℚ) (cn f : ℚ)
    (stim_apparition impulse_time : List ℚ) (fl fv : ℚ) : ℝ × ℝ :=
  let impulse_time :=
    if impulse_time.length = 1 ∧ stim_apparition.length ≠ 1 then
      py_list_mul impulse_time stim_apparition.length
    else impulse_time
  ding2007_system_dynamics p cn f t stim_apparition impulse_time fl fv

/-- Source `hmed2018_with_fatigue_integrate.py` lines 254-269, the broadcast
step of `dynamics`: `if len(intensity_parameters) == 1 and
len(stim_apparition) != 1: intensity_parameters = intensity_parameters *
len(stim_apparition)`, then call `system_dynamics`. -/
noncomputable def hmed_dynamics (p : HmedParams) (t : ℚ) (cn f a tau1 km : ℚ)
    (stim_apparition intensity_parameters : List ℚ) (fl fv : ℚ) : List ℝ :=
  let intensity_parameters :=
    if intensity_parameters.length = 1 ∧ stim_apparition.length ≠ 1 then
      py_list_mul intensity_parameters stim_apparition.length
    else intensity_parameters
  hmed_system_dynamics p cn f a tau1 km t stim_apparition intensity_parameters fl fv

/-- Model instance handed to `IvpFes`: its subclass together with the
thresholds the checks read (`model.pd0` and `model.min_pulse_intensity()`,
the latter computed in `hmed2018.py`, which is not under `src/`). -/
structure IvpModel where
  kind : ModelKind
  pd0 : ℚ
  min_pulse_intensity : ℚ
deriving DecidableEq

/-- The `fes_parameters` dictionary of `IvpFes` after `_fill_fes_dict`
(defaults merged in); `stim_time` is a separate, always-well-typed list of
apparition times as in the repository's tests. -/
structure FesParams where
  model : IvpModel
  n_stim : PyVal
  stim_time : List ℚ
  pulse_duration : PyVal
  pulse_intensity : PyVal
  pulse_mode : PyVal

/-- Kind of value held by the `ode_solver` entry. -/
inductive OdeSolverVal where
  | rk1
  | rk2
  | rk4
  | collocation
  | otherVal
deriving DecidableEq

/-- Python `isinstance(ode_solver, (OdeSolver.RK1, OdeSolver.RK2,
OdeSolver.RK4, OdeSolver.COLLOCATION))`. -/
def OdeSolverVal.isAccepted : OdeSolverVal → Bool
  | .otherVal => false
  | _ => true

/-- The `ivp_parameters` dictionary of `IvpFes` after `_fill_ivp_dict`. -/
structure IvpParams where
  n_shooting : PyVal
  final_time : PyVal
  extend_last_phase_time : PyVal
  ode_solver : OdeSolverVal
  use_sx : PyVal
  n_threads : PyVal

/-- Source `ivp_fes.py` lines 202-203: `n_stim` must be an `int`
(`ValueError` otherwise). -/
def check_n_stim (fes : FesParams) : Except PyError Unit :=
  if fes.n_stim.isInstInt = false then
    Except.error (.valueError "n_stim must be an int type")
  else Except.ok ()

/-- Source `ivp_fes.py` lines 205-235, the pulse-duration block of
`dictionaries_check` (run only for a pulse-duration model): the type check
(`bool` excluded, then `int | float | list`; the source then compares the
resulting bool with the type `list`, which never holds, so the all-int
refinement of line 214 is dead code), then the minimum-duration check
against `model.pd0`. -/
def check_pulse_duration (fes : FesParams) : Except PyError Unit :=
  if fes.model.kind.isPulseDuration = false then Except.ok ()
  else do
    let pulse_duration_format :=
      if fes.pulse_duration.isInstBool then false
      else fes.pulse_duration.isInstInt || fes.pulse_duration.isInstFloat ||
        fes.pulse_duration.isInstList
    if pulse_duration_format = false then
      throw (.typeError "pulse_duration must be int, float or list type")
    let minimum_pulse_duration := fes.model.pd0
    let min_pulse_duration_check ←
      match fes.pulse_duration with
      | .pylist xs => pyAllGe xs minimum_pulse_duration
      | v =>
        match pyGeQ v minimum_pulse_duration with
        | some b => pure b
        | Option.none => throw (.typeError "comparison not supported between instances")
    if min_pulse_duration_check = false then
      throw (.valueError "Pulse duration must be greater than minimum pulse duration")

/-- Source `ivp_fes.py` lines 237-266, the pulse-intensity block of
`dictionaries_check` (run only for a pulse-intensity model), mirroring the
pulse-duration block against `model.min_pulse_intensity()`. -/
def check_pulse_intensity (fes : FesParams) : Except PyError Unit :=
  if fes.model.kind.isPulseIntensity = false then Except.ok ()
  else do
    let pulse_intensity_format :=
      if fes.pulse_intensity.isInstBool then false
      else fes.pulse_intensity.isInstInt || fes.pulse_intensity.isInstFloat ||
        fes.pulse_intensity.isInstList
    if pulse_intensity_format = false then
      throw (.typeError "pulse_intensity must be int, float or list type")
    let minimum_pulse_intensity ←
      match fes.pulse_intensity with
      | .pylist xs => pyAllGe xs fes.model.min_pulse_intensity
      | v =>
        match pyGeQ v fes.model.min_pulse_intensity with
        | some b => pure b
        | Option.none => throw (.typeError "comparison not supported between instances")
    if minimum_pulse_intensity = false then
      throw (.valueError "Pulse intensity must be greater than minimum pulse intensity")

/-- Source `ivp_fes.py` lines 268-289, the trailing guards of
`dictionaries_check`: `pulse_mode` a `str`, `n_shooting` an
`int | list | None`, `final_time` an `int | float`,
`extend_last_phase_time` an `int | float | None`, `ode_solver` one of the
accepted solver classes, `use_sx` a `bool` and `n_threads` an `int`; each
rejection is a `ValueError`. -/
def check_remaining (fes : FesParams) (ivp : IvpParams) : Except PyError Unit := do
  if fes.pulse_mode.isInstStr = false then
    throw (.valueError "pulse_mode must be a string type")
  if (ivp.n_shooting.isInstInt || ivp.n_shooting.isInstList || ivp.n_shooting.isNone) = false then
    throw (.valueError "n_shooting must be an int or a list type")
  if (ivp.final_time.isInstInt || ivp.final_time.isInstFloat) = false then
    throw (.valueError "final_time must be an int or float type")
  if (ivp.extend_last_phase_time.isInstInt || ivp.extend_last_phase_time.isInstFloat ||
      ivp.extend_last_phase_time.isNone) = false then
    throw (.valueError "extend_last_phase_time must be an int or float type")
  if ivp.ode_solver.isAccepted = false then
    throw (.valueError "ode_solver must be a OdeSolver type")
  if ivp.use_sx.isInstBool = false then
    throw (.valueError "use_sx must be a bool type")
  if ivp.n_threads.isInstInt = false then
    throw (.valueError "n_thread must be a int type")

/-- Source `ivp_fes.py` lines 192-289, `dictionaries_check`, in source
order.  The two leading dictionary-type guards and the `FesModel` instance
guard hold by construction of the embedded records. -/
def dictionaries_check (fes : FesParams) (ivp : IvpParams) : Except PyError Unit := do
  check_n_stim fes
  check_pulse_duration fes
  check_pulse_intensity fes
  check_remaining fes ivp

/-- Floor of a rational as an integer. -/
def qfloor (q : ℚ) : ℤ := Int.fdiv q.num q.den

/-- Python `round` to the nearest integer, ties to even (banker's
rounding), on the exact rational value. -/
def pyround (q : ℚ) : ℤ :=
  let f := qfloor q
  let frac := q - (f : ℚ)
  if frac < 1 / 2 then f
  else if 1 / 2 < frac then f + 1
  else if f % 2 = 0 then f else f + 1

/-- Python `round(q, 3)` on the exact rational value. -/
def round3 (q : ℚ) : ℚ := (pyround (q * 1000) : ℚ) / 1000

/-- Source `ivp_fes.py` lines 291-311, `_pulse_mode_settings`: `single`
leaves the list unchanged; `doublet` appends each time shifted by `0.005 s`
(rounded to 3 decimals), sorts, and sets `n_stim` to the new length;
`triplet` additionally appends the `0.01 s` shifts; any other mode raises
`ValueError("Pulse mode not yet implemented")`. -/
def pulse_mode_settings (pulse_mode : String) (stim_time : List ℚ) (n_stim : ℕ) :
    Except PyError (List ℚ × ℕ) :=
  if pulse_mode = "single" then Except.ok (stim_time, n_stim)
  else if pulse_mode = "doublet" then
    let doublet_step : ℚ := 5 / 1000
    let stim_time_doublet := stim_time.map (fun s => round3 (s + doublet_step))
    let combined := (stim_time ++ stim_time_doublet).insertionSort (· ≤ ·)
    Except.ok (combined, combined.length)
  else if pulse_mode = "triplet" then
    let doublet_step : ℚ := 5 / 1000
    let triplet_step : ℚ := 10 / 1000
    let stim_time_doublet := stim_time.map (fun s => round3 (s + doublet_step))
    let stim_time_triplet := stim_time.map (fun s => round3 (s + triplet_step))
    let combined := (stim_time ++ stim_time_doublet ++ stim_time_triplet).insertionSort (· ≤ ·)
    Except.ok (combined, combined.length)
  else Except.error (.valueError "Pulse mode not yet implemented")

/-- Source `ivp_fes.py` lines 40-153, the checked portion of
`IvpFes.__init__` in source order: `dictionaries_check`, then
`_pulse_mode_settings`, then the pulse-duration parameter stage with its
length guard (lines 97-123) and the pulse-intensity stage with its length
guard (lines 125-140).  On success it returns the expanded stimulation
times and the updated `n_stim`; integration (`integrate`) is only reachable
from a successfully constructed problem. -/
def ivp_init (fes : FesParams) (ivp : IvpParams) : Except PyError (List ℚ × ℕ) := do
  dictionaries_check fes ivp
  let st ← pulse_mode_settings fes.pulse_mode.toStr fes.stim_time fes.n_stim.toNat
  let stim_time := st.1
  let n_stim := st.2
  if fes.model.kind.isPulseDuration then
    let pulse_duration_init : List ℚ :=
      match fes.pulse_duration with
      | .pylist xs => xs.map PyVal.toQ
      | v => List.replicate n_stim v.toQ
    if pulse_duration_init.length ≠ n_stim then
      throw (.valueError "pulse_duration list must have the same length as n_stim")
  if fes.model.kind.isPulseIntensity then
    let pulse_intensity_init : List ℚ :=
      match fes.pulse_intensity with
      | .pylist xs => xs.map PyVal.toQ
      | v => List.replicate n_stim v.toQ
    if pulse_intensity_init.length ≠ n_stim then
      throw (.valueError "pulse_intensity list must have the same length as n_stim")
  pure (stim_time, n_stim)

/-- Python truthiness of an optional numeric configuration entry (`None`
and `0` are falsy). -/
def qOptTruthy : Option ℚ → Bool
  | some q => q ≠ 0
  | Option.none => false

/-- Python `[tmin, tmax].count(None)`. -/
def countNone (xs : List (Option ℚ)) : ℕ :=
  (xs.filter (fun x => x.isNone)).length

/-- Source `fes_ocp.py` lines 276-324, the leading guards of
`OcpFes._sanity_check` as exercised by a frequency-kind model with default
objective and solver arguments (whose remaining guards pass): positive
`n_shooting` and `final_time`, the pulse-mode guard raising
`NotImplementedError`, the frequency guard, and the min/max pairing guard;
the `bimapping` entry is a `bool` by construction so its type guard
passes. -/
def ocp_sanity_check (n_shooting : ℤ) (final_time : ℚ) (pulse_mode : String)
    (frequency : Option ℚ) (tmin tmax : Option ℚ) : Except PyError Unit := do
  if n_shooting < 0 then throw (.typeError "n_shooting must be a positive int type")
  if final_time < 0 then throw (.typeError "final_time must be a positive int or float type")
  if pulse_mode ≠ "single" then
    throw (.notImplementedError ("Pulse mode " ++ pulse_mode ++ " is not yet implemented"))
  if qOptTruthy frequency then
    if frequency.getD 0 ≤ 0 then throw (.valueError "frequency must be positive")
  if countNone [tmin, tmax] = 1 then
    throw (.valueError "min and max time event must be both entered or none of them in order to work")

/-- Source `fes_ocp.py` lines 563-566, the guard of
`OcpFes._build_parameters`: `if pulse_event["bimapping"] and
pulse_event["min"] and pulse_event["max"]: raise NotImplementedError(...)`
(Python truthiness on the bounds). -/
def ocp_build_parameters_guard (bimapping : Bool) (tmin tmax : Option ℚ) :
    Except PyError Unit := do
  if bimapping && qOptTruthy tmin && qOptTruthy tmax then
    throw (.notImplementedError "Bimapping is not yet implemented for pulse event")

/-- Source `fes_ocp.py` lines 42-131, the configuration stage of
`OcpFes._prepare_optimization_problem` and `prepare_ocp`: `_sanity_check`
runs first, then `_build_parameters`; the `OptimalControlProgram` (and any
later solve) is only constructed when both succeed. -/
def ocp_prepare (n_shooting : ℤ) (final_time : ℚ) (pulse_mode : String)
    (frequency : Option ℚ) (tmin tmax : Option ℚ) (bimapping : Bool) :
    Except PyError Unit := do
  ocp_sanity_check n_shooting final_time pulse_mode frequency tmin tmax
  ocp_build_parameters_guard bimapping tmin tmax

/-- Data the three `CustomConstraint` penalty functions read from their
`PenaltyController` argument. -/
structure PenaltyControllerModel where
  n_phases : ℕ
  phase_idx : ℕ
  first_phase_tf : ℚ
  current_phase_tf : ℚ
  pulse_duration_cx : ℕ → ℚ
  pulse_intensity_cx : ℕ → ℚ

/-- Source `custom_constraints.py` lines 11-21,
`CustomConstraint.equal_to_first_pulse_interval_time`: the single-phase
guard builds a `RuntimeError` object but has no `raise`, so the exception
value is discarded and the difference expression is always returned. -/
def equal_to_first_pulse_interval_time (c : PenaltyControllerModel) : Except PyError ℚ :=
  let _discarded :=
    if c.n_phases ≤ 1 then
      some (PyError.runtimeError "There is only one phase, the bimapping constraint is not possible")
    else Option.none
  Except.ok (c.first_phase_tf - c.current_phase_tf)

/-- Source `custom_constraints.py` lines 23-30,
`CustomConstraint.equal_to_first_pulse_duration`: same discarded guard,
then `parameters["pulse_duration"].cx[0] -
parameters["pulse_duration"].cx[phase_idx]`. -/
def equal_to_first_pulse_duration (c : PenaltyControllerModel) : Except PyError ℚ :=
  let _discarded :=
    if c.n_phases ≤ 1 then
      some (PyError.runtimeError "There is only one phase, the bimapping constraint is not possible")
    else Option.none
  Except.ok (c.pulse_duration_cx 0 - c.pulse_duration_cx c.phase_idx)

/-- Source `custom_constraints.py` lines 32-39,
`CustomConstraint.equal_to_first_pulse_intensity`: same discarded guard,
then `parameters["pulse_intensity"].cx[0] -
parameters["pulse_intensity"].cx[phase_idx]`. -/
def equal_to_first_pulse_intensity (c : PenaltyControllerModel) : Except PyError ℚ :=
  let _discarded :=
    if c.n_phases ≤ 1 then
      some (PyError.runtimeError "There is only one phase, the bimapping constraint is not possible")
    else Option.none
  Except.ok (c.pulse_intensity_cx 0 - c.pulse_intensity_cx c.phase_idx)

/-- Default constants of `DingModelPulseDurationFrequency.__init__` (source
`ding2007.py` lines 55-61); `a_rest` and `r0_km_relationship` belong to the
base model whose file is not under `src/` and only serve as concrete values
in witnesses. -/
def dingDefaultParams : Ding2007Params where
  a_scale := 4920
  pd0 := 131405 / 1000000000
  pdt := 194138 / 1000000000
  tau1_rest := 60601 / 1000000
  tau2 := 1 / 1000
  km_rest := 137 / 1000
  tauc := 11 / 1000
  a_rest := 3009
  r0_km_relationship := 104 / 100

/-- Fatigue constants of
`DingModelIntensityFrequencyWithFatigueIntegrate.__init__` (source
`hmed2018_with_fatigue_integrate.py` lines 42-45, with Python
`10e-7 = 1e-6` and so on); the remaining fields belong to base classes
whose files are not under `src/` and only serve as concrete values in
witnesses. -/
def hmedDefaultParams : HmedParams where
  a_rest := 3009
  tau1_rest := 50957 / 1000000
  km_rest := 103 / 1000
  alpha_a := -(4 / 1000000)
  alpha_tau1 := 21 / 100000
  alpha_km := 19 / 100000000
  tau_fat := 127
  tauc := 2 / 100
  r0_km_relationship := 104 / 100
  cr := 1139 / 1000
  bs := 26 / 1000
  Is := 631 / 10
  muscle_name := Option.none

/-- Well-typed default `ivp_parameters` (after `_fill_ivp_dict`) used by
witnesses. -/
def ivpDefault : IvpParams where
  n_shooting := .pyint 100
  final_time := .pyfloat (3 / 10)
  extend_last_phase_time := .pybool false
  ode_solver := .rk4
  use_sx := .pybool true
  n_threads := .pyint 1

/-- Pulse-duration-model configuration with a scalar duration below `pd0`
(the repository's test `test_all_ivp_errors` uses `0.00001`). -/
def fesDurationTooSmall : FesParams where
  model := { kind := .pulseDuration, pd0 := 131405 / 1000000000, min_pulse_intensity := 0 }
  n_stim := .pyint 3
  stim_time := [0, 1 / 10, 1 / 5]
  pulse_duration := .pyfloat (1 / 100000)
  pulse_intensity := .pyint 50
  pulse_mode := .pystr "single"

/-- Frequency-model configuration whose `n_stim` entry is a string. -/
def fesBadNStim : FesParams where
  model := { kind := .frequency, pd0 := 131405 / 1000000000, min_pulse_intensity := 0 }
  n_stim := .pystr "three"
  stim_time := [0, 1 / 10, 1 / 5]
  pulse_duration := .pyfloat (3 / 10000)
  pulse_intensity := .pyint 50
  pulse_mode := .pystr "single"

/-- Pulse-duration-model configuration with a boolean `pulse_duration` (the
repository's test passes `True`). -/
def fesBoolDuration : FesParams where
  model := { kind := .pulseDuration, pd0 := 131405 / 1000000000, min_pulse_intensity := 0 }
  n_stim := .pyint 3
  stim_time := [0, 1 / 10, 1 / 5]
  pulse_duration := .pybool true
  pulse_intensity := .pyint 50
  pulse_mode := .pystr "single"

/-- Pulse-intensity-model configuration with a boolean `pulse_intensity`. -/
def fesBoolIntensity : FesParams where
  model := { kind := .pulseIntensity, pd0 := 131405 / 1000000000, min_pulse_intensity := 17 }
  n_stim := .pyint 3
  stim_time := [0, 1 / 10, 1 / 5]
  pulse_duration := .pyfloat (3 / 10000)
  pulse_intensity := .pybool true
  pulse_mode := .pystr "single"

/-- Pulse-duration-model configuration whose duration list has length 2
while `n_stim` is 3 (the repository's test passes `[0.0003, 0.0004]`). -/
def fesLengthMismatch : FesParams where
  model := { kind := .pulseDuration, pd0 := 131405 / 1000000000, min_pulse_intensity := 0 }
  n_stim := .pyint 3
  stim_time := [0, 1 / 10, 1 / 5]
  pulse_duration := .pylist [.pyfloat (3 / 10000), .pyfloat (4 / 10000)]
  pulse_intensity := .pyint 50
  pulse_mode := .pystr "single"

/-- Frequency-model configuration with the unsupported pulse mode
`"Quadruplet"` from the repository's test `test_all_ivp_errors`. -/
def fesQuadruplet : FesParams where
  model := { kind := .frequency, pd0 := 131405 / 1000000000, min_pulse_intensity := 0 }
  n_stim := .pyint 3
  stim_time := [0, 1 / 10, 1 / 5]
  pulse_duration := .pyfloat (3 / 10000)
  pulse_intensity := .pyint 50
  pulse_mode := .pystr "Quadruplet"

/-- Bind of a successful `Except` computation. -/
theorem except_ok_bind {ε α β : Type} (a : α) (f : α → Except ε β) :
    (Except.ok a >>= f : Except ε β) = f a := rfl

/-- Bind of a failed `Except` computation. -/
theorem except_error_bind {ε α β : Type} (e : ε) (f : α → Except ε β) :
    (Except.error e >>= f : Except ε β) = Except.error e := rfl

/-- C2: for every state value and force, the fatigue-variant derivative
functions return exactly the linear relaxation-to-rest plus
force-proportional forcing terms of the spec, and each is affine in its
state and in the force (no saturation or clamping for any input). -/
theorem claim_C2 (p : HmedParams) (a tau1 km f c : ℚ) :
    (a_dot_fun p a f = -(a - p.a_rest) / p.tau_fat + p.alpha_a * f
      ∧ tau1_dot_fun p tau1 f = -(tau1 - p.tau1_rest) / p.tau_fat + p.alpha_tau1 * f
      ∧ km_dot_fun p km f = -(km - p.km_rest) / p.tau_fat + p.alpha_km * f)
    ∧ (a_dot_fun p (a + c) f - a_dot_fun p a f = -c / p.tau_fat
      ∧ a_dot_fun p a (f + c) - a_dot_fun p a f = p.alpha_a * c)
    ∧ (tau1_dot_fun p (tau1 + c) f - tau1_dot_fun p tau1 f = -c / p.tau_fat
      ∧ tau1_dot_fun p tau1 (f + c) - tau1_dot_fun p tau1 f = p.alpha_tau1 * c)
    ∧ (km_dot_fun p (km + c) f - km_dot_fun p km f = -c / p.tau_fat
      ∧ km_dot_fun p km (f + c) - km_dot_fun p km f = p.alpha_km * c) := by
  refine ⟨⟨rfl, rfl, rfl⟩, ⟨?_, ?_⟩, ⟨?_, ?_⟩, ⟨?_, ?_⟩⟩ <;>
    simp only [a_dot_fun, tau1_dot_fun, km_dot_fun] <;> ring

/-- C4: `standard_rest_values` returns a column vector whose length equals
the length of `name_dof`, with entries `Cn = 0, F = 0, A = a_rest,
Tau1 = tau1_rest, Km = km_rest` in state order; the base 2-state variant
has `Cn = 0, F = 0`. -/
theorem claim_C4 (p : HmedParams) (b : Bool) :
    (standard_rest_values p).length = (name_dof p b).length
    ∧ standard_rest_values p = [[0], [0], [p.a_rest], [p.tau1_rest], [p.km_rest]]
    ∧ base_standard_rest_values.length = base_name_dof.length
    ∧ base_standard_rest_values = [[0], [0]] := by
  refine ⟨?_, rfl, rfl, rfl⟩
  simp [standard_rest_values, name_dof]

/-- C5: the dynamics evaluation is deterministic and mutation-free: two
calls of `system_dynamics` on identical inputs (with the model state
threaded explicitly) return identical derivative vectors, and the model
record after each call is the one it started with, for both the
pulse-duration and the intensity-with-fatigue variants. -/
theorem claim_C5 (p : Ding2007Params) (q : HmedParams) (cn f a tau1 km t : ℚ)
    (ts imp ints : List ℚ) (fl fv : ℚ) :
    ((ding2007_system_dynamics_run p cn f t ts imp fl fv).1
        = (ding2007_system_dynamics_run
            (ding2007_system_dynamics_run p cn f t ts imp fl fv).2 cn f t ts imp fl fv).1
      ∧ (ding2007_system_dynamics_run p cn f t ts imp fl fv).2 = p)
    ∧ ((hmed_system_dynamics_run q cn f a tau1 km t ts ints fl fv).1
        = (hmed_system_dynamics_run
            (hmed_system_dynamics_run q cn f a tau1 km t ts ints fl fv).2
            cn f a tau1 km t ts ints fl fv).1
      ∧ (hmed_system_dynamics_run q cn f a tau1 km t ts ints fl fv).2 = q) :=
  ⟨⟨rfl, rfl⟩, ⟨rfl, rfl⟩⟩

/-- C10: the single-phase guards of the three `CustomConstraint` functions
construct a `RuntimeError` but never raise it, so each function always
returns the difference expression (first value minus current-phase value)
regardless of the number of phases. -/
theorem claim_C10 (c : PenaltyControllerModel) :
    equal_to_first_pulse_interval_time c = Except.ok (c.first_phase_tf - c.current_phase_tf)
    ∧ equal_to_first_pulse_duration c
        = Except.ok (c.pulse_duration_cx 0 - c.pulse_duration_cx c.phase_idx)
    ∧ equal_to_first_pulse_intensity c
        = Except.ok (c.pulse_intensity_cx 0 - c.pulse_intensity_cx c.phase_idx) :=
  ⟨rfl, rfl, rfl⟩

/-- Python list repetition of a singleton is `List.replicate`. -/
theorem py_list_mul_singleton (d : ℚ) : ∀ n, py_list_mul [d] n = List.replicate n d
  | 0 => rfl
  | n + 1 => by
      simp [py_list_mul, py_list_mul_singleton d n, List.replicate_succ]

/-- Python rounding of an integer value is that integer. -/
theorem pyround_intCast (n : ℤ) : pyround (n : ℚ) = n := by
  unfold pyround qfloor
  norm_num [Rat.num_intCast, Rat.den_intCast, Int.fdiv_one]

/-- Three-decimal rounding of a value whose thousandfold is the integer
`n`. -/
theorem round3_of_mul_intCast (q : ℚ) (n : ℤ) (h : q * 1000 = (n : ℚ)) :
    round3 q = (n : ℚ) / 1000 := by
  unfold round3
  rw [h, pyround_intCast]

/-- C8: with base stimulation times `[0, 0.1, 0.2]` the pulse-mode
expansion returns, for `doublet`, the sorted sequence of length `2 * 3`
(and for `triplet` of length `3 * 3`), strictly ascending with no duplicate
times, updating `n_stim` to the new length; `single` leaves the sequence
and `n_stim` unchanged. -/
theorem claim_C8 :
    pulse_mode_settings "single" [0, 1 / 10, 1 / 5] 3 = Except.ok ([0, 1 / 10, 1 / 5], 3)
    ∧ pulse_mode_settings "doublet" [0, 1 / 10, 1 / 5] 3
        = Except.ok ([0, 1 / 200, 1 / 10, 21 / 200, 1 / 5, 41 / 200], 6)
    ∧ (6 = 2 * 3 ∧ List.Chain' (· < ·) [(0 : ℚ), 1 / 200, 1 / 10, 21 / 200, 1 / 5, 41 / 200])
    ∧ pulse_mode_settings "triplet" [0, 1 / 10, 1 / 5] 3
        = Except.ok
            ([0, 1 / 200, 1 / 100, 1 / 10, 21 / 200, 11 / 100, 1 / 5, 41 / 200, 21 / 100], 9)
    ∧ (9 = 3 * 3
      ∧ List.Chain' (· < ·)
          [(0 : ℚ), 1 / 200, 1 / 100, 1 / 10, 21 / 200, 11 / 100, 1 / 5, 41 / 200, 21 / 100]) := by
  have r1 : round3 (0 + 5 / 1000) = 1 / 200 := by
    rw [round3_of_mul_intCast _ 5 (by norm_num)]; norm_num
  have r2 : round3 (1 / 10 + 5 / 1000) = 21 / 200 := by
    rw [round3_of_mul_intCast _ 105 (by norm_num)]; norm_num
  have r3 : round3 (1 / 5 + 5 / 1000) = 41 / 200 := by
    rw [round3_of_mul_intCast _ 205 (by norm_num)]; norm_num
  have r4 : round3 (0 + 10 / 1000) = 1 / 100 := by
    rw [round3_of_mul_intCast _ 10 (by norm_num)]; norm_num
  have r5 : round3 (1 / 10 + 10 / 1000) = 11 / 100 := by
    rw [round3_of_mul_intCast _ 110 (by norm_num)]; norm_num
  have r6 : round3 (1 / 5 + 10 / 1000) = 21 / 100 := by
    rw [round3_of_mul_intCast _ 210 (by norm_num)]; norm_num
  refine ⟨rfl, ?_, ⟨rfl, by norm_num⟩, ?_, ⟨rfl, by norm_num⟩⟩
  · simp only [pulse_mode_settings, List.map_cons, List.map_nil, r1, r2, r3]
    norm_num [List.insertionSort, List.orderedInsert]
    decide
  · simp only [pulse_mode_settings, List.map_cons, List.map_nil, r1, r2, r3, r4, r5, r6]
    norm_num [List.insertionSort, List.orderedInsert]
    rw [if_neg (by decide), if_neg (by decide)]

/-- C3: evaluating the dynamics with a single scalar duration (resp.
intensity) yields exactly the same state derivative as evaluating it with
that scalar repeated once per stimulation time: the dispatcher broadcasts
the singleton parameter list before the per-pulse computation. -/
theorem claim_C3 (p : Ding2007Params) (q : HmedParams) (t cn f a tau1 km : ℚ)
    (stim : List ℚ) (d inten : ℚ) (fl fv : ℚ) (h : 1 < stim.length) :
    ding2007_dynamics p t cn f stim [d] fl fv
      = ding2007_dynamics p t cn f stim (List.replicate stim.length d) fl fv
    ∧ hmed_dynamics q t cn f a tau1 km stim [inten] fl fv
      = hmed_dynamics q t cn f a tau1 km stim (List.replicate stim.length inten) fl fv := by
  have hne : stim.length ≠ 1 := by omega
  have h1 : ([d] : List ℚ).length = 1 ∧ stim.length ≠ 1 := ⟨rfl, hne⟩
  have h1i : ([inten] : List ℚ).length = 1 ∧ stim.length ≠ 1 := ⟨rfl, hne⟩
  have h2 : ∀ x : ℚ, ¬((List.replicate stim.length x).length = 1 ∧ stim.length ≠ 1) := by
    intro x hc
    rw [List.length_replicate] at hc
    exact hc.2 hc.1
  constructor
  · simp only [ding2007_dynamics]
    rw [if_pos h1, if_neg (h2 d), py_list_mul_singleton]
  · simp only [hmed_dynamics]
    rw [if_pos h1i, if_neg (h2 inten), py_list_mul_singleton]

/-- Witness for C3 at the concrete stimulation times `[0, 0.1]` with the
default model constants, a scalar duration of `0.0003` and a scalar
intensity of `50`. -/
theorem claim_C3_witness :
    ding2007_dynamics dingDefaultParams (3 / 20) 1 2 [0, 1 / 10] [3 / 10000] 1 1
      = ding2007_dynamics dingDefaultParams (3 / 20) 1 2 [0, 1 / 10]
          (List.replicate 2 (3 / 10000)) 1 1
    ∧ hmed_dynamics hmedDefaultParams (3 / 20) 1 2 3009 (50957 / 1000000) (103 / 1000)
          [0, 1 / 10] [50] 1 1
      = hmed_dynamics hmedDefaultParams (3 / 20) 1 2 3009 (50957 / 1000000) (103 / 1000)
          [0, 1 / 10] (List.replicate 2 50) 1 1 :=
  claim_C3 dingDefaultParams hmedDefaultParams (3 / 20) 1 2 3009 (50957 / 1000000)
    (103 / 1000) [0, 1 / 10] (3 / 10000) 50 1 1 (by decide)

/-- When every duration is nonzero, the selection loop of `a_calculation`
computes exactly the spec's fold: keep the duration of each pulse whose
apparition time has passed, otherwise keep the previous value. -/
theorem a_selection_eq_spec (t : ℚ) (ts ds : List ℚ)
    (hlen : ts.length = ds.length) (hne : ts ≠ [])
    (hnz : ∀ x ∈ ds, x ≠ 0) :
    a_selection t ts ds = spec_selected_duration t ts ds := by
  match ts, ds with
  | [], _ => exact absurd rfl hne
  | t0 :: ts', [] => simp at hlen
  | t0 :: ts', d0 :: ds' =>
    unfold a_selection spec_selected_duration
    simp only [List.zip_cons_cons, List.foldl_cons, List.getD_cons_zero]
    rw [ite_self]
    refine List.foldl_ext _ _ _ ?_
    intro acc p hp
    have hp2 : p.2 ∈ ds' := (List.of_mem_zip hp).2
    have hnz2 : p.2 ≠ 0 := hnz p.2 (List.mem_cons_of_mem _ hp2)
    by_cases h1 : p.1 ≤ t
    · simp [h1, hnz2]
    · simp [h1]

/-- The spec's selection fold keeps its accumulator when no pulse has an
apparition time that has passed. -/
theorem zip_fold_keep_of_inactive (t : ℚ) :
    ∀ (ts ds : List ℚ) (acc : ℚ), (∀ x ∈ ts, ¬ x ≤ t) →
      (ts.zip ds).foldl (fun acc p => if p.1 ≤ t then p.2 else acc) acc = acc
  | [], _, _, _ => rfl
  | _ :: _, [], _, _ => rfl
  | t0 :: ts, d0 :: ds, acc, h => by
    simp only [List.zip_cons_cons, List.foldl_cons]
    rw [if_neg (h t0 (List.mem_cons_self _ _))]
    exact zip_fold_keep_of_inactive t ts ds acc (fun x hx => h x (List.mem_cons_of_mem _ hx))

/-- On an ascending stimulation list whose first pulse is active, the
spec's selection fold returns the duration paired with the last active
pulse, i.e. the entry of index `len(takeWhile (· ≤ t)) - 1`. -/
theorem spec_fold_takeWhile (t : ℚ) :
    ∀ (ts ds : List ℚ) (acc : ℚ), ts.length = ds.length →
      List.Chain' (· ≤ ·) ts → ts ≠ [] → ts.getD 0 0 ≤ t →
      (ts.zip ds).foldl (fun acc p => if p.1 ≤ t then p.2 else acc) acc
        = ds.getD ((ts.takeWhile (fun x => decide (x ≤ t))).length - 1) 0
  | [], _, _, _, _, hne, _ => absurd rfl hne
  | t0 :: ts, [], acc, hlen, _, _, _ => by simp at hlen
  | [t0], [d0], acc, _, _, _, hact => by
    have h0 : t0 ≤ t := by simpa using hact
    simp [List.takeWhile_cons_of_pos (p := fun x => decide (x ≤ t)) (by simpa using h0), h0]
  | t0 :: t1 :: ts, d0 :: ds1, acc, hlen, hchain, _, hact => by
    have h0 : t0 ≤ t := by simpa using hact
    have hlen' : (t1 :: ts).length = ds1.length := by simpa using hlen
    have hchain' : List.Chain' (· ≤ ·) (t1 :: ts) := hchain.tail
    simp only [List.zip_cons_cons, List.foldl_cons]
    rw [if_pos h0]
    by_cases h1 : t1 ≤ t
    · rw [spec_fold_takeWhile t (t1 :: ts) ds1 d0 hlen' hchain' (by simp)
        (by simpa using h1)]
      rw [List.takeWhile_cons_of_pos (a := t1) (l := ts) (by simpa using h1),
        List.takeWhile_cons_of_pos (a := t0) (by simpa using h0),
        List.takeWhile_cons_of_pos (a := t1) (by simpa using h1)]
      simp
    · have hall : ∀ x ∈ t1 :: ts, ¬ x ≤ t := by
        intro x hx
        rcases List.mem_cons.1 hx with hx0 | hx1
        · exact hx0 ▸ h1
        · intro hxle
          have h1x : t1 ≤ x := by
            have hp : List.Pairwise (· ≤ ·) (t1 :: ts) :=
              List.chain'_iff_pairwise.1 hchain'
            exact (List.pairwise_cons.1 hp).1 x hx1
          exact h1 (le_trans h1x hxle)
      rw [zip_fold_keep_of_inactive t (t1 :: ts) ds1 d0 hall]
      rw [List.takeWhile_cons_of_pos (a := t0) (by simpa using h0),
        List.takeWhile_cons_of_neg (a := t1) (by simpa using h1)]
      simp

/-- C1: for an ascending stimulation list with equally many nonzero
durations whose first pulse is active, `a_calculation` returns
`a_scale * (1 - exp(-(d - pd0) / pdt))` where `d` is the spec's selection
(scan in ascending order, keep the last active duration, fall back on a
zero candidate), and that selection is the duration of the most recent
pulse whose apparition time satisfies `t_stim_prev[i] <= t`. -/
theorem claim_C1 (a_scale pd0 pdt t : ℚ) (ts ds : List ℚ)
    (hlen : ts.length = ds.length) (hne : ts ≠ [])
    (hnz : ∀ x ∈ ds, x ≠ 0)
    (hsorted : List.Chain' (· ≤ ·) ts)
    (hact : ts.getD 0 0 ≤ t) :
    a_calculation a_scale pd0 pdt t ts ds
      = (a_scale : ℝ) *
          (1 - Real.exp (-(((spec_selected_duration t ts ds : ℚ) : ℝ) - (pd0 : ℝ)) / (pdt : ℝ)))
    ∧ spec_selected_duration t ts ds
        = ds.getD ((ts.takeWhile (fun x => decide (x ≤ t))).length - 1) 0 := by
  constructor
  · unfold a_calculation
    rw [a_selection_eq_spec t ts ds hlen hne hnz]
  · unfold spec_selected_duration
    exact spec_fold_takeWhile t ts ds _ hlen hsorted hne hact

/-- Witness for C1 at `t = 0.15` with stimulation times `[0, 0.1, 0.2]` and
durations `[0.0003, 0.0004, 0.0005]`: the second pulse is the most recent
active one. -/
theorem claim_C1_witness :
    a_calculation 4920 (131405 / 1000000000) (194138 / 1000000000) (3 / 20)
        [0, 1 / 10, 1 / 5] [3 / 10000, 4 / 10000, 5 / 10000]
      = (4920 : ℝ) *
          (1 - Real.exp
            (-(((spec_selected_duration (3 / 20) [0, 1 / 10, 1 / 5]
                  [3 / 10000, 4 / 10000, 5 / 10000] : ℚ) : ℝ) -
                ((131405 / 1000000000 : ℚ) : ℝ)) / ((194138 / 1000000000 : ℚ) : ℝ)))
    ∧ spec_selected_duration (3 / 20) [0, 1 / 10, 1 / 5] [3 / 10000, 4 / 10000, 5 / 10000]
        = [(3 : ℚ) / 10000, 4 / 10000, 5 / 10000].getD
            (([(0 : ℚ), 1 / 10, 1 / 5].takeWhile (fun x => decide (x ≤ 3 / 20))).length - 1) 0 :=
  claim_C1 4920 (131405 / 1000000000) (194138 / 1000000000) (3 / 20)
    [0, 1 / 10, 1 / 5] [3 / 10000, 4 / 10000, 5 / 10000]
    rfl (by simp) (by norm_num) (by norm_num) (by norm_num)

/-- Python `pure` in the `Except` monad is `Except.ok`. -/
theorem except_pure {ε α : Type} (a : α) : (pure a : Except ε α) = Except.ok a := rfl

/-- Python `throw` in the `Except` monad is `Except.error`. -/
theorem except_throw {ε α : Type} (e : ε) : (throw e : Except ε α) = Except.error e := rfl

/-- Comparison comprehension over a list of floats never raises and yields
the pointwise comparisons. -/
theorem pyCompareAllGe_floats (m : ℚ) : ∀ xs : List ℚ,
    pyCompareAllGe (xs.map PyVal.pyfloat) m
      = Except.ok (xs.map (fun x => decide (m ≤ x)))
  | [] => rfl
  | x :: xs => by
    simp [pyCompareAllGe, pyGeQ, pyCompareAllGe_floats m xs]

/-- `all([x >= m for x in xs])` over floats. -/
theorem pyAllGe_floats (m : ℚ) (xs : List ℚ) :
    pyAllGe (xs.map PyVal.pyfloat) m = Except.ok (xs.all (fun x => decide (m ≤ x))) := by
  simp only [pyAllGe, pyCompareAllGe_floats, except_ok_bind, except_pure, Except.ok.injEq]
  induction xs with
  | nil => rfl
  | cons x xs ih => simp [ih]

/-- The `n_stim` guard passes on an `int`. -/
theorem check_n_stim_ok (fes : FesParams) (h : fes.n_stim.isInstInt = true) :
    check_n_stim fes = Except.ok () := by
  simp [check_n_stim, h]

/-- The pulse-duration block is skipped for non-duration models. -/
theorem check_pulse_duration_skip (fes : FesParams)
    (h : fes.model.kind.isPulseDuration = false) :
    check_pulse_duration fes = Except.ok () := by
  simp [check_pulse_duration, h]

/-- The pulse-intensity block is skipped for non-intensity models. -/
theorem check_pulse_intensity_skip (fes : FesParams)
    (h : fes.model.kind.isPulseIntensity = false) :
    check_pulse_intensity fes = Except.ok () := by
  simp [check_pulse_intensity, h]

/-- A scalar float duration below `pd0` makes the pulse-duration block
raise the range `ValueError`. -/
theorem check_pd_scalar_err (fes : FesParams)
    (hkind : fes.model.kind.isPulseDuration = true)
    (q : ℚ) (hpd : fes.pulse_duration = PyVal.pyfloat q) (hlt : q < fes.model.pd0) :
    check_pulse_duration fes
      = Except.error (.valueError "Pulse duration must be greater than minimum pulse duration") := by
  have hnle : ¬ fes.model.pd0 ≤ q := not_le.2 hlt
  simp [check_pulse_duration, hkind, hpd, pyGeQ, hnle, PyVal.isInstBool, PyVal.isInstFloat,
    except_ok_bind, except_error_bind, except_throw, except_pure]

/-- A scalar float duration at or above `pd0` passes the pulse-duration
block. -/
theorem check_pd_scalar_ok (fes : FesParams)
    (hkind : fes.model.kind.isPulseDuration = true)
    (q : ℚ) (hpd : fes.pulse_duration = PyVal.pyfloat q) (hge : fes.model.pd0 ≤ q) :
    check_pulse_duration fes = Except.ok () := by
  simp [check_pulse_duration, hkind, hpd, pyGeQ, hge, PyVal.isInstBool, PyVal.isInstFloat,
    except_ok_bind, except_error_bind, except_throw, except_pure]

/-- A float list duration with some element below `pd0` makes the
pulse-duration block raise the range `ValueError`. -/
theorem check_pd_list_err (fes : FesParams)
    (hkind : fes.model.kind.isPulseDuration = true)
    (xs : List ℚ) (hpd : fes.pulse_duration = PyVal.pylist (xs.map PyVal.pyfloat))
    (hex : ∃ x ∈ xs, x < fes.model.pd0) :
    check_pulse_duration fes
      = Except.error (.valueError "Pulse duration must be greater than minimum pulse duration") := by
  obtain ⟨x, hx, hlt⟩ := hex
  have hall : xs.all (fun x => decide (fes.model.pd0 ≤ x)) = false := by
    rw [List.all_eq_false]
    exact ⟨x, hx, by simpa using not_le.2 hlt⟩
  simp [check_pulse_duration, hkind, hpd, pyAllGe_floats, hall, PyVal.isInstBool,
    PyVal.isInstList, except_ok_bind, except_error_bind, except_throw, except_pure]

/-- A float list duration with every element at or above `pd0` passes the
pulse-duration block. -/
theorem check_pd_list_ok (fes : FesParams)
    (hkind : fes.model.kind.isPulseDuration = true)
    (xs : List ℚ) (hpd : fes.pulse_duration = PyVal.pylist (xs.map PyVal.pyfloat))
    (hge : ∀ x ∈ xs, fes.model.pd0 ≤ x) :
    check_pulse_duration fes = Except.ok () := by
  have hall : xs.all (fun x => decide (fes.model.pd0 ≤ x)) = true := by
    rw [List.all_eq_true]
    intro x hx
    simpa using hge x hx
  simp [check_pulse_duration, hkind, hpd, pyAllGe_floats, hall, PyVal.isInstBool,
    PyVal.isInstList, except_ok_bind, except_error_bind, except_throw, except_pure]

/-- An error of the pulse-duration block propagates through
`dictionaries_check` when the `n_stim` guard passes. -/
theorem dictionaries_check_err_of_pd (fes : FesParams) (ivp : IvpParams)
    (hnstim : fes.n_stim.isInstInt = true) (e : PyError)
    (hpd : check_pulse_duration fes = Except.error e) :
    dictionaries_check fes ivp = Except.error e := by
  simp [dictionaries_check, check_n_stim_ok fes hnstim, hpd, except_ok_bind, except_error_bind]

/-- An error of `dictionaries_check` propagates through the construction
pipeline `ivp_init`, so it is raised before any integration. -/
theorem ivp_init_err_of_dict (fes : FesParams) (ivp : IvpParams) (e : PyError)
    (h : dictionaries_check fes ivp = Except.error e) :
    ivp_init fes ivp = Except.error e := by
  simp [ivp_init, h, except_error_bind]

/-- C6: for an `IvpFes` construction with a pulse-duration model, a scalar
duration (or any element of a duration list) strictly below the model's
`pd0` makes construction fail with the range `ValueError` before any
integration (the whole init pipeline returns that error), while durations
all at or above `pd0` pass the duration check without raising. -/
theorem claim_C6 (fes : FesParams) (ivp : IvpParams)
    (hkind : fes.model.kind.isPulseDuration = true)
    (hnstim : fes.n_stim.isInstInt = true) :
    (∀ q : ℚ, fes.pulse_duration = PyVal.pyfloat q → q < fes.model.pd0 →
      ivp_init fes ivp
        = Except.error (.valueError "Pulse duration must be greater than minimum pulse duration"))
    ∧ (∀ xs : List ℚ, fes.pulse_duration = PyVal.pylist (xs.map PyVal.pyfloat) →
        (∃ x ∈ xs, x < fes.model.pd0) →
        ivp_init fes ivp
          = Except.error
              (.valueError "Pulse duration must be greater than minimum pulse duration"))
    ∧ (∀ q : ℚ, fes.pulse_duration = PyVal.pyfloat q → fes.model.pd0 ≤ q →
        check_pulse_duration fes = Except.ok ())
    ∧ (∀ xs : List ℚ, fes.pulse_duration = PyVal.pylist (xs.map PyVal.pyfloat) →
        (∀ x ∈ xs, fes.model.pd0 ≤ x) →
        check_pulse_duration fes = Except.ok ()) := by
  refine ⟨?_, ?_, ?_, ?_⟩
  · intro q hpd hlt
    exact ivp_init_err_of_dict fes ivp _
      (dictionaries_check_err_of_pd fes ivp hnstim _ (check_pd_scalar_err fes hkind q hpd hlt))
  · intro xs hpd hex
    exact ivp_init_err_of_dict fes ivp _
      (dictionaries_check_err_of_pd fes ivp hnstim _ (check_pd_list_err fes hkind xs hpd hex))
  · intro q hpd hge
    exact check_pd_scalar_ok fes hkind q hpd hge
  · intro xs hpd hge
    exact check_pd_list_ok fes hkind xs hpd hge

/-- Witness for C6: the repository's test configuration with a scalar
duration `0.00001 < pd0` is rejected with the range `ValueError`, and the
accepted duration `0.0003` passes the check. -/
theorem claim_C6_witness :
    ivp_init fesDurationTooSmall ivpDefault
      = Except.error (.valueError "Pulse duration must be greater than minimum pulse duration")
    ∧ check_pulse_duration
        { fesDurationTooSmall with pulse_duration := PyVal.pyfloat (3 / 10000) }
      = Except.ok () :=
  ⟨(claim_C6 fesDurationTooSmall ivpDefault rfl rfl).1 (1 / 100000) rfl
      (by norm_num [fesDurationTooSmall]),
    (claim_C6 { fesDurationTooSmall with pulse_duration := PyVal.pyfloat (3 / 10000) }
        ivpDefault rfl rfl).2.2.1 (3 / 10000) rfl (by norm_num [fesDurationTooSmall])⟩

/-- A Python value that is a bool, or none of int/float/list, fails the
`int | float | list` format test (with the bool exclusion applied first). -/
theorem py_format_false_of_wrong (v : PyVal)
    (h : v.isInstBool = true ∨
      (v.isInstInt = false ∧ v.isInstFloat = false ∧ v.isInstList = false)) :
    (if v.isInstBool then false else v.isInstInt || v.isInstFloat || v.isInstList) = false := by
  cases v <;>
    simp_all [PyVal.isInstBool, PyVal.isInstInt, PyVal.isInstFloat, PyVal.isInstList]

/-- A wrong-typed `pulse_duration` makes the pulse-duration block raise the
`TypeError`. -/
theorem check_pd_wrongtype (fes : FesParams)
    (hkind : fes.model.kind.isPulseDuration = true)
    (hfmt : (if fes.pulse_duration.isInstBool then false
      else fes.pulse_duration.isInstInt || fes.pulse_duration.isInstFloat ||
        fes.pulse_duration.isInstList) = false) :
    check_pulse_duration fes
      = Except.error (.typeError "pulse_duration must be int, float or list type") := by
  simp [check_pulse_duration, hkind, hfmt, except_error_bind, except_throw]

/-- A wrong-typed `pulse_intensity` makes the pulse-intensity block raise
the `TypeError`. -/
theorem check_pi_wrongtype (fes : FesParams)
    (hkind : fes.model.kind.isPulseIntensity = true)
    (hfmt : (if fes.pulse_intensity.isInstBool then false
      else fes.pulse_intensity.isInstInt || fes.pulse_intensity.isInstFloat ||
        fes.pulse_intensity.isInstList) = false) :
    check_pulse_intensity fes
      = Except.error (.typeError "pulse_intensity must be int, float or list type") := by
  simp [check_pulse_intensity, hkind, hfmt, except_error_bind, except_throw]

/-- An error of the pulse-intensity block propagates through
`dictionaries_check` when the earlier guards pass. -/
theorem dictionaries_check_err_of_pi (fes : FesParams) (ivp : IvpParams)
    (hnstim : fes.n_stim.isInstInt = true)
    (hpd : check_pulse_duration fes = Except.ok ()) (e : PyError)
    (hpi : check_pulse_intensity fes = Except.error e) :
    dictionaries_check fes ivp = Except.error e := by
  simp [dictionaries_check, check_n_stim_ok fes hnstim, hpd, hpi,
    except_ok_bind, except_error_bind]

/-- Counterexample to C7 as stated: a wrong-typed (non-int) `n_stim` is
rejected with a `ValueError`, not a `TypeError`. -/
theorem claim_C7_counterexample :
    dictionaries_check fesBadNStim ivpDefault
      = Except.error (.valueError "n_stim must be an int type")
    ∧ PyError.isTypeError (PyError.valueError "n_stim must be an int type") = false :=
  ⟨rfl, rfl⟩

/-- C7 (amended): configuration errors are raised before any integration
begins; a wrong-typed `pulse_duration` or `pulse_intensity` raises a
`TypeError`, while other wrong-typed inputs such as a non-int `n_stim`
raise a `ValueError`, as do out-of-range values and duration lists whose
length mismatches the number of stimulations. -/
theorem claim_C7_amended (fes : FesParams) (ivp : IvpParams) :
    (fes.n_stim.isInstInt = false →
      dictionaries_check fes ivp = Except.error (.valueError "n_stim must be an int type")
      ∧ ivp_init fes ivp = Except.error (.valueError "n_stim must be an int type"))
    ∧ (fes.n_stim.isInstInt = true → fes.model.kind.isPulseDuration = true →
        (fes.pulse_duration.isInstBool = true ∨
          (fes.pulse_duration.isInstInt = false ∧ fes.pulse_duration.isInstFloat = false ∧
            fes.pulse_duration.isInstList = false)) →
        dictionaries_check fes ivp
          = Except.error (.typeError "pulse_duration must be int, float or list type"))
    ∧ (fes.n_stim.isInstInt = true → fes.model.kind.isPulseDuration = false →
        fes.model.kind.isPulseIntensity = true →
        (fes.pulse_intensity.isInstBool = true ∨
          (fes.pulse_intensity.isInstInt = false ∧ fes.pulse_intensity.isInstFloat = false ∧
            fes.pulse_intensity.isInstList = false)) →
        dictionaries_check fes ivp
          = Except.error (.typeError "pulse_intensity must be int, float or list type"))
    ∧ ivp_init fesLengthMismatch ivpDefault
        = Except.error (.valueError "pulse_duration list must have the same length as n_stim") := by
  refine ⟨?_, ?_, ?_, ?_⟩
  · intro h
    have hn : check_n_stim fes = Except.error (.valueError "n_stim must be an int type") := by
      simp [check_n_stim, h]
    have hd : dictionaries_check fes ivp
        = Except.error (.valueError "n_stim must be an int type") := by
      simp [dictionaries_check, hn, except_error_bind]
    exact ⟨hd, ivp_init_err_of_dict fes ivp _ hd⟩
  · intro hnstim hkind hwrong
    exact dictionaries_check_err_of_pd fes ivp hnstim _
      (check_pd_wrongtype fes hkind (py_format_false_of_wrong _ hwrong))
  · intro hnstim hkd hki hwrong
    exact dictionaries_check_err_of_pi fes ivp hnstim
      (check_pulse_duration_skip fes hkd) _
      (check_pi_wrongtype fes hki (py_format_false_of_wrong _ hwrong))
  · have hok : check_pulse_duration fesLengthMismatch = Except.ok () := by
      refine check_pd_list_ok fesLengthMismatch rfl [3 / 10000, 4 / 10000] rfl ?_
      intro x hx
      simp only [List.mem_cons, List.not_mem_nil, or_false] at hx
      rcases hx with rfl | rfl <;> norm_num [fesLengthMismatch]
    have hdc : dictionaries_check fesLengthMismatch ivpDefault = Except.ok () := by
      simp [dictionaries_check, check_n_stim_ok fesLengthMismatch rfl, hok,
        check_pulse_intensity_skip fesLengthMismatch rfl, except_ok_bind]
      rfl
    unfold ivp_init
    rw [hdc, except_ok_bind]
    rfl

/-- Witness for the amended C7 at the repository's test inputs: a string
`n_stim` gives a `ValueError`, boolean `pulse_duration` and
`pulse_intensity` give `TypeError`s. -/
theorem claim_C7_witness :
    dictionaries_check fesBadNStim ivpDefault
      = Except.error (.valueError "n_stim must be an int type")
    ∧ dictionaries_check fesBoolDuration ivpDefault
        = Except.error (.typeError "pulse_duration must be int, float or list type")
    ∧ dictionaries_check fesBoolIntensity ivpDefault
        = Except.error (.typeError "pulse_intensity must be int, float or list type") :=
  ⟨((claim_C7_amended fesBadNStim ivpDefault).1 rfl).1,
   (claim_C7_amended fesBoolDuration ivpDefault).2.1 rfl rfl (Or.inl rfl),
   (claim_C7_amended fesBoolIntensity ivpDefault).2.2.1 rfl rfl rfl (Or.inl rfl)⟩

/-- C9: unsupported feature combinations are rejected at configuration
time, before any solve or integration: an unimplemented pulse mode makes
`_pulse_mode_settings` (and the whole `IvpFes` construction) fail with the
"Pulse mode not yet implemented" rejection, a non-`single` pulse mode makes
`OcpFes._sanity_check` (and the whole preparation) fail with a
`NotImplementedError`, and bimapping combined with event-time min/max
bounds makes `OcpFes._build_parameters` (and the whole preparation) fail
with a `NotImplementedError`. -/
theorem claim_C9 (pm : String) (stim : List ℚ) (n : ℕ) (ns : ℤ) (ft : ℚ)
    (freq tminO tmaxO : Option ℚ) (tmin tmax : ℚ) (bi : Bool) :
    (pm ≠ "single" → pm ≠ "doublet" → pm ≠ "triplet" →
      pulse_mode_settings pm stim n
        = Except.error (.valueError "Pulse mode not yet implemented"))
    ∧ ivp_init fesQuadruplet ivpDefault
        = Except.error (.valueError "Pulse mode not yet implemented")
    ∧ (0 ≤ ns → 0 ≤ ft → pm ≠ "single" →
      ocp_prepare ns ft pm freq tminO tmaxO bi
        = Except.error
            (.notImplementedError ("Pulse mode " ++ pm ++ " is not yet implemented")))
    ∧ (0 ≤ ns → 0 ≤ ft → tmin ≠ 0 → tmax ≠ 0 →
      ocp_prepare ns ft "single" Option.none (some tmin) (some tmax) true
        = Except.error
            (.notImplementedError "Bimapping is not yet implemented for pulse event")) := by
  refine ⟨?_, rfl, ?_, ?_⟩
  · intro h1 h2 h3
    simp [pulse_mode_settings, h1, h2, h3]
  · intro hns0 hft0 hpm
    have hns : ¬ ns < 0 := not_lt.2 hns0
    have hft : ¬ ft < 0 := not_lt.2 hft0
    simp [ocp_prepare, ocp_sanity_check, hns, hft, hpm, except_throw,
      except_error_bind, except_ok_bind, except_pure]
  · intro hns0 hft0 htmin htmax
    have hns : ¬ ns < 0 := not_lt.2 hns0
    have hft : ¬ ft < 0 := not_lt.2 hft0
    simp [ocp_prepare, ocp_sanity_check, ocp_build_parameters_guard, hns, hft,
      qOptTruthy, countNone, htmin, htmax, except_throw, except_error_bind,
      except_ok_bind, except_pure]

/-- Witness for C9 at the pulse mode `"wave"`, `n_shooting = 100`,
`final_time = 0.3` and event-time bounds `0.01`/`0.1` with bimapping. -/
theorem claim_C9_witness :
    pulse_mode_settings "wave" [0, 1 / 10] 2
      = Except.error (.valueError "Pulse mode not yet implemented")
    ∧ ocp_prepare 100 (3 / 10) "wave" Option.none Option.none Option.none false
        = Except.error (.notImplementedError ("Pulse mode " ++ "wave" ++ " is not yet implemented"))
    ∧ ocp_prepare 100 (3 / 10) "single" Option.none (some (1 / 100)) (some (1 / 10)) true
        = Except.error
            (.notImplementedError "Bimapping is not yet implemented for pulse event") :=
  ⟨(claim_C9 "wave" [0, 1 / 10] 2 100 (3 / 10) Option.none Option.none Option.none
      (1 / 100) (1 / 10) false).1 (by decide) (by decide) (by decide),
   (claim_C9 "wave" [0, 1 / 10] 2 100 (3 / 10) Option.none Option.none Option.none
      (1 / 100) (1 / 10) false).2.2.1 (by norm_num) (by norm_num) (by decide),
   (claim_C9 "single" [0, 1 / 10] 2 100 (3 / 10) Option.none Option.none Option.none
      (1 / 100) (1 / 10) true).2.2.2 (by norm_num) (by norm_num) (by norm_num) (by norm_num)⟩
